import Mathlib

set_option autoImplicit false

/-!
Verification of the authorization/authentication core of a role-gated
blog service (Flask blueprint `blog_bp`): role derivation from badge
numbers, dual-credential hashing and verification, the route guard
decision procedure, the badge+PIN API authentication contract, and the
administrative user-deletion path with its cascade rule.

The data model follows `models.py` (tables `users`, `blog_posts`,
`comments`); the operations follow `main.py` (`determine_user_category`,
`roles_required`, `register`, `login`, `authenticate_badge_pin`,
`delete_user`) and the form validators of `forms.py`.
-/

/-! ## Data model (models.py) -/

/-- A row of the `users` table: id, email (unique), password digest,
display name, badge (unique), PIN digest, category, optional company. -/
structure User where
  id : Nat
  email : String
  password : String
  name : String
  badge : String
  pin : String
  category : String
  company : Option String
deriving Repr, DecidableEq

/-- A row of the `blog_posts` table. -/
structure BlogPost where
  id : Nat
  author_id : Nat
  title : String
  subtitle : String
  date : String
  body : String
  img_url : String
deriving Repr, DecidableEq

/-- A row of the `comments` table.  `post_id: Mapped[int]` is a
non-Optional annotated column with no `nullable=` override, so under
SQLAlchemy 2.0 annotated mapping it is NOT NULL (the model passes
`nullable=True` explicitly where it wants nullability, as for
`category` and `company`). -/
structure Comment where
  id : Nat
  text : String
  author_id : Nat
  post_id : Nat
deriving Repr, DecidableEq

/-- The durable store: the three tables. -/
structure Store where
  users : List User
  posts : List BlogPost
  comments : List Comment
deriving Repr, DecidableEq

/-- Embedding of `db.select(User).where(User.email == email)` followed by
`.scalar()`: the first user with the given email, if any. -/
def findUserByEmail (st : Store) (email : String) : Option User :=
  st.users.find? (fun u => u.email == email)

/-- Embedding of `db.select(User).where(User.badge == badge)` followed by
`.scalar()`: the first user with the given badge, if any. -/
def findUserByBadge (st : Store) (badge : String) : Option User :=
  st.users.find? (fun u => u.badge == badge)

/-! ## Role classifier (main.py, determine_user_category) -/

/-- The `categories` dict of `determine_user_category`, applied to the
first character with `.get(first_digit, "unknown")`. -/
def categoriesGet (first_digit : Char) : String :=
  if first_digit = '1' then "executive"
  else if first_digit = '2' then "vip"
  else if first_digit = '3' then "director"
  else if first_digit = '4' then "manager"
  else if first_digit = '5' then "newHire"
  else if first_digit = '6' then "campaign"
  else if first_digit = '7' then "regular"
  else "unknown"

/-- Embedding of `determine_user_category(badge_number)`: `if not badge_number` (the
Python falsy test, covering both `None` and the empty string) returns
"unknown", otherwise the category of the first character. -/
def determine_user_category (badge_number : Option String) : String :=
  match badge_number with
  | none => "unknown"
  | some s =>
    match s.data with
    | [] => "unknown"
    | first_digit :: _ => categoriesGet first_digit

/-! ## Route guard (main.py, roles_required) -/

/-- The decision a `roles_required`-wrapped route produces: run the
handler (`allow` carries its result), `redirect(url_for('blog.login',
next=request.url))` after a warning flash, or `abort(403)`. -/
inductive Decision (α : Type) where
  | allow (result : α)
  | redirectToLogin (next : String)
  | forbidden
deriving Repr, DecidableEq

/-- Embedding of `roles_required(*required_roles)` applied to a handler `f`: if
`current_user` is not authenticated, redirect to the login page carrying
`request.url` as the `next` target; if the user's category is not one of
the required roles, `abort(403)`; otherwise run the handler.  The store
is threaded explicitly: the handler may transform it, the guard itself
never does. -/
def roles_required {α : Type} (required_roles : List String)
    (current_user : Option User) (request_url : String)
    (f : User → Store → Store × α) (st : Store) : Store × Decision α :=
  match current_user with
  | none => (st, Decision.redirectToLogin request_url)
  | some u =>
    if required_roles.contains u.category then
      let r := f u st
      (r.1, Decision.allow r.2)
    else
      (st, Decision.forbidden)

/-! ## Claim C1 -/

/-- C1: `determine_user_category` returns "unknown" on null and on the
empty string; on a non-empty badge the result is determined by the first
character alone ('1' executive, '2' vip, '3' director, '4' manager,
'5' newHire, '6' campaign, '7' regular, anything else "unknown"), so
changing characters after index 0 never changes the result.  Being a
Lean function, it is pure, total and deterministic. -/
theorem C1_role_classifier :
    determine_user_category none = "unknown" ∧
    determine_user_category (some "") = "unknown" ∧
    (∀ (c : Char) (r r' : List Char),
      determine_user_category (some (String.mk (c :: r))) =
        determine_user_category (some (String.mk (c :: r')))) ∧
    (∀ r : List Char,
      determine_user_category (some (String.mk ('1' :: r))) = "executive" ∧
      determine_user_category (some (String.mk ('2' :: r))) = "vip" ∧
      determine_user_category (some (String.mk ('3' :: r))) = "director" ∧
      determine_user_category (some (String.mk ('4' :: r))) = "manager" ∧
      determine_user_category (some (String.mk ('5' :: r))) = "newHire" ∧
      determine_user_category (some (String.mk ('6' :: r))) = "campaign" ∧
      determine_user_category (some (String.mk ('7' :: r))) = "regular") ∧
    (∀ (c : Char) (r : List Char),
      c ≠ '1' → c ≠ '2' → c ≠ '3' → c ≠ '4' → c ≠ '5' → c ≠ '6' → c ≠ '7' →
      determine_user_category (some (String.mk (c :: r))) = "unknown") := by
  refine ⟨rfl, rfl, ?_, ?_, ?_⟩
  · intro c r r'
    rfl
  · intro r
    refine ⟨rfl, rfl, rfl, rfl, rfl, rfl, rfl⟩
  · intro c r h1 h2 h3 h4 h5 h6 h7
    show categoriesGet c = "unknown"
    unfold categoriesGet
    rw [if_neg h1, if_neg h2, if_neg h3, if_neg h4, if_neg h5, if_neg h6,
      if_neg h7]

/-- Witness for C1: the catch-all branch at the concrete badge "9xx". -/
theorem C1_role_classifier_witness :
    determine_user_category (some (String.mk ('9' :: ['x', 'x']))) = "unknown" :=
  C1_role_classifier.2.2.2.2 '9' ['x', 'x'] (by decide) (by decide) (by decide)
    (by decide) (by decide) (by decide) (by decide)

/-! ## Claim C2 -/

/-- C2: the guard redirects to login carrying the originally requested
target when no identity is present, returns Forbidden (403) when the
identity's role is not in the required set, and otherwise runs the
wrapped handler; on every non-Allow decision the store is returned
unchanged (no state mutation), and the handler's effect appears exactly
in the Allow case. -/
theorem C2_roles_required_guard {α : Type} (required_roles : List String)
    (current_user : Option User) (request_url : String)
    (f : User → Store → Store × α) (st : Store) :
    (current_user = none →
      roles_required required_roles current_user request_url f st =
        (st, Decision.redirectToLogin request_url)) ∧
    (∀ u, current_user = some u →
      required_roles.contains u.category = false →
      roles_required required_roles current_user request_url f st =
        (st, Decision.forbidden)) ∧
    (∀ u, current_user = some u →
      required_roles.contains u.category = true →
      roles_required required_roles current_user request_url f st =
        ((f u st).1, Decision.allow (f u st).2)) ∧
    (∀ st' d, roles_required required_roles current_user request_url f st = (st', d) →
      (∀ r : α, d ≠ Decision.allow r) → st' = st) := by
  refine ⟨?_, ?_, ?_, ?_⟩
  · intro h
    subst h
    rfl
  · intro u hu hrole
    subst hu
    have hmem : u.category ∉ required_roles := by simpa using hrole
    simp [roles_required, hmem]
  · intro u hu hrole
    subst hu
    have hmem : u.category ∈ required_roles := by simpa using hrole
    simp [roles_required, hmem]
  · intro st' d heq hnotallow
    cases current_user with
    | none =>
      simp [roles_required] at heq
      exact heq.1.symm
    | some u =>
      by_cases hmem : u.category ∈ required_roles
      · simp [roles_required, hmem] at heq
        exact absurd heq.2.symm (hnotallow (f u st).2)
      · simp [roles_required, hmem] at heq
        exact heq.1.symm

/-- Witness for C2: at a concrete anonymous request, the guard redirects
to login carrying the requested target, leaving the store untouched. -/
theorem C2_roles_required_guard_witness :
    roles_required ["executive", "director"] none "/blog_project/new-post"
      (fun _ st => (st, 0)) ⟨[], [], []⟩ =
      (⟨[], [], []⟩, Decision.redirectToLogin "/blog_project/new-post") :=
  (C2_roles_required_guard ["executive", "director"] none "/blog_project/new-post"
    (fun _ st => (st, 0)) ⟨[], [], []⟩).1 rfl

/-! ## Credential hasher/verifier

`generate_password_hash` / `check_password_hash` come from werkzeug, an
external collaborator; they are modelled from the spec (section 4.2). -/

/-- Modelled from the spec: the key-derivation core of werkzeug's
pbkdf2:sha256 scheme is abstracted as a function from salt and secret to
a digest body; the spec requires only that the digest embeds the salt
and that verification recomputes with that salt. -/
structure HashParams where
  H : String → String → String

/-- Modelled from the spec: `hash(secret)` produces a salted one-way
digest; the randomized salt is made an explicit argument (two calls with
fresh randomness supply two different salts).  The digest format is
werkzeug's `method$salt$hash`. -/
def generate_password_hash (P : HashParams) (salt : String) (secret : String) : String :=
  "pbkdf2:sha256" ++ "$" ++ salt ++ "$" ++ P.H salt secret

/-- Split a character list at every '$', keeping empty segments. -/
def splitDollar : List Char → List (List Char)
  | [] => [[]]
  | c :: rest =>
    if c = '$' then [] :: splitDollar rest
    else
      match splitDollar rest with
      | [] => [[c]]
      | p :: ps => (c :: p) :: ps

/-- Modelled from the spec: `verify(candidate, digest)` parses the
digest into method, salt and hash body, recomputes with the embedded
salt and compares; any digest that does not parse into the three parts
yields false rather than an error. -/
def check_password_hash (P : HashParams) (pwhash : String) (password : String) : Bool :=
  match splitDollar pwhash.data with
  | [_method, salt, hashval] => P.H (String.mk salt) password == String.mk hashval
  | _ => false

/-- Applying `splitDollar` to a list without '$' gives that single segment. -/
theorem splitDollar_no_dollar (l : List Char) (h : '$' ∉ l) :
    splitDollar l = [l] := by
  induction l with
  | nil => rfl
  | cons c rest ih =>
    have hc : c ≠ '$' := fun hc => h (hc ▸ List.mem_cons_self c rest)
    have hrest : '$' ∉ rest := fun hm => h (List.mem_cons_of_mem c hm)
    simp [splitDollar, hc, ih hrest]

/-- Applying `splitDollar` peels a '$'-free segment before a '$'. -/
theorem splitDollar_append (a rest : List Char) (ha : '$' ∉ a) :
    splitDollar (a ++ '$' :: rest) = a :: splitDollar rest := by
  induction a with
  | nil => simp [splitDollar]
  | cons c tl ih =>
    have hc : c ≠ '$' := fun hc => ha (hc ▸ List.mem_cons_self c tl)
    have htl : '$' ∉ tl := fun hm => ha (List.mem_cons_of_mem c hm)
    rw [List.cons_append]
    rw [splitDollar]
    simp only [hc, if_false]
    rw [ih htl]

/-- The character data of a produced digest. -/
theorem generate_password_hash_data (P : HashParams) (salt secret : String) :
    (generate_password_hash P salt secret).data =
      "pbkdf2:sha256".data ++ '$' :: (salt.data ++ '$' :: (P.H salt secret).data) := by
  simp [generate_password_hash, String.data_append]

/-- Parsing a produced digest recovers method, salt and hash body,
provided salt and hash body are '$'-free. -/
theorem splitDollar_generate (P : HashParams) (salt secret : String)
    (hs : '$' ∉ salt.data) (hh : '$' ∉ (P.H salt secret).data) :
    splitDollar (generate_password_hash P salt secret).data =
      ["pbkdf2:sha256".data, salt.data, (P.H salt secret).data] := by
  rw [generate_password_hash_data]
  rw [splitDollar_append _ _ (by decide)]
  rw [splitDollar_append _ _ hs]
  rw [splitDollar_no_dollar _ hh]

/-- Structure eta: rebuilding a string from its data is the identity. -/
theorem string_mk_data (s : String) : String.mk s.data = s := rfl

/-- A concrete hash-parameter instantiation for witnesses: the digest
body is the secret itself (an extreme but legal key-derivation core). -/
def idHash : HashParams := ⟨fun _ secret => secret⟩

/-! ## Claim C5 -/

/-- C5: verification succeeds on a digest produced from the same secret;
two hash calls on the same secret with distinct (randomized) salts give
two distinct digests, both verifying true; with an injective derivation
core, a different candidate verifies false; and a digest that does not
parse into method, salt and hash body (in particular the literal
"not-a-valid-digest") makes verification return false instead of
raising. -/
theorem C5_hash_verify (P : HashParams) (salt₁ salt₂ s s' : String)
    (hs1 : '$' ∉ salt₁.data) (hs2 : '$' ∉ salt₂.data)
    (hh1 : '$' ∉ (P.H salt₁ s).data) (hh2 : '$' ∉ (P.H salt₂ s).data)
    (hsalts : salt₁ ≠ salt₂) (hne : s' ≠ s)
    (hinj : ∀ a b, P.H salt₁ a = P.H salt₁ b → a = b) :
    check_password_hash P (generate_password_hash P salt₁ s) s = true ∧
    check_password_hash P (generate_password_hash P salt₂ s) s = true ∧
    generate_password_hash P salt₁ s ≠ generate_password_hash P salt₂ s ∧
    check_password_hash P (generate_password_hash P salt₁ s) s' = false ∧
    (∀ (dg c : String), (∀ x y z, splitDollar dg.data ≠ [x, y, z]) →
      check_password_hash P dg c = false) ∧
    (∀ c, check_password_hash P "not-a-valid-digest" c = false) := by
  have e1 := splitDollar_generate P salt₁ s hs1 hh1
  have e2 := splitDollar_generate P salt₂ s hs2 hh2
  refine ⟨?_, ?_, ?_, ?_, ?_, ?_⟩
  · simp [check_password_hash, e1, string_mk_data]
  · simp [check_password_hash, e2, string_mk_data]
  · intro heq
    have hdata : splitDollar (generate_password_hash P salt₁ s).data =
        splitDollar (generate_password_hash P salt₂ s).data := by rw [heq]
    rw [e1, e2] at hdata
    simp only [List.cons.injEq] at hdata
    exact hsalts (string_mk_data salt₁ ▸ string_mk_data salt₂ ▸
      congrArg String.mk hdata.2.1)
  · simp only [check_password_hash, e1]
    rw [beq_eq_false_iff_ne]
    intro hcol
    exact hne (hinj s' s hcol)
  · intro dg c hshape
    rcases e : splitDollar dg.data with _ | ⟨a, _ | ⟨b, _ | ⟨d, _ | ⟨x, tl⟩⟩⟩⟩
    · simp [check_password_hash, e]
    · simp [check_password_hash, e]
    · simp [check_password_hash, e]
    · exact absurd e (hshape a b d)
    · simp [check_password_hash, e]
  · intro c
    rfl

/-- Witness for C5 at concrete salts "ab", "cd" and secrets "4321",
"0000" with the identity derivation core. -/
theorem C5_hash_verify_witness :
    check_password_hash idHash (generate_password_hash idHash "ab" "4321") "4321" = true ∧
    check_password_hash idHash (generate_password_hash idHash "cd" "4321") "4321" = true ∧
    generate_password_hash idHash "ab" "4321" ≠ generate_password_hash idHash "cd" "4321" ∧
    check_password_hash idHash (generate_password_hash idHash "ab" "4321") "0000" = false ∧
    (∀ (dg c : String), (∀ x y z, splitDollar dg.data ≠ [x, y, z]) →
      check_password_hash idHash dg c = false) ∧
    (∀ c, check_password_hash idHash "not-a-valid-digest" c = false) :=
  C5_hash_verify idHash "ab" "cd" "4321" "0000" (by decide) (by decide)
    (by decide) (by decide) (by decide) (by decide) (fun _ _ h => h)

/-! ## Form validation (forms.py) -/

/-- The submitted fields of `RegisterForm`. -/
structure RegisterForm where
  email : String
  password : String
  name : String
  badge : String
  company : String
  pin : String
deriving Repr, DecidableEq

/-- WTForms `DataRequired` on a string field: fails when the value is
falsy (empty) or consists only of whitespace. -/
def dataRequired (s : String) : Bool :=
  !(s.data.all Char.isWhitespace)

/-- WTForms `Length(min=lo, max=hi)`. -/
def lengthBetween (lo hi : Nat) (s : String) : Bool :=
  decide (lo ≤ s.length) && decide (s.length ≤ hi)

/-- Four to six ASCII digits: the body `[0-9]{4,6}` of the PIN pattern
matched against a whole character list. -/
def reMatch46 (l : List Char) : Bool :=
  decide (4 ≤ l.length) && decide (l.length ≤ 6) && l.all Char.isDigit

/-- The `Regexp(r'^[0-9]{4,6}$')` validator of `RegisterForm.pin`, with
Python `re.match` semantics: `$` matches at the end of the string and
also just before a newline at the end of the string, so the validator
accepts four to six digits optionally followed by one trailing
newline. -/
def regexpDigits46 (s : String) : Bool :=
  reMatch46 s.data ||
    (s.data.getLast? == some '\n' && reMatch46 s.data.dropLast)

/-- The validator chain of `RegisterForm.pin`: `DataRequired`,
`Length(min=4, max=6)`, `Regexp(r'^[0-9]{4,6}$')`. -/
def pinFieldValid (pin : String) : Bool :=
  dataRequired pin && lengthBetween 4 6 pin && regexpDigits46 pin

/-- Modelled from the spec: the PIN acceptance condition as the spec
words it, a match of `^[0-9]{4,6}$` read as exactly four to six digits
(the spec calls the PIN "a numeric string of length 4-6"). -/
def pinSpecAccept (pin : String) : Bool :=
  decide (4 ≤ pin.length) && decide (pin.length ≤ 6) && pin.data.all Char.isDigit

/-- Modelled from the spec, amended for what the code accepts: four to
six digits, or four or five digits followed by a single trailing
newline (Python's `$` matches before a trailing newline and the
`Length(max=6)` validator bounds the total length including it). -/
def pinAcceptAmended (pin : String) : Bool :=
  pinSpecAccept pin ||
    (pin.data.getLast? == some '\n' &&
     decide (4 ≤ pin.data.dropLast.length) &&
     decide (pin.data.dropLast.length ≤ 5) &&
     pin.data.dropLast.all Char.isDigit)

/-- Embedding of `RegisterForm.validate_on_submit()`: every field validator passes
(email, password, name, badge are `DataRequired`; company is
`Length(max=150)`; pin is the chain above). -/
def validRegisterForm (f : RegisterForm) : Bool :=
  dataRequired f.email && dataRequired f.password && dataRequired f.name &&
  dataRequired f.badge && decide (f.company.length ≤ 150) && pinFieldValid f.pin

/-! ## Registration (main.py, register) -/

/-- The visible outcome of a registration request: invalid form
(re-render), duplicate email (flash and redirect to login), duplicate
badge (flash and re-render), or success (flash and redirect to login). -/
inductive RegisterOutcome where
  | formInvalid
  | duplicateEmail
  | duplicateBadge
  | success (new_user : User)
deriving Repr, DecidableEq

/-- The `User(...)` record built by `register`: both secrets hashed
independently (their two salts are the two randomness draws), category
classified from the badge, company None when the field is empty. -/
def newUserOf (P : HashParams) (saltPw saltPin : String) (nextId : Nat)
    (f : RegisterForm) : User :=
  { id := nextId
    email := f.email
    password := generate_password_hash P saltPw f.password
    name := f.name
    badge := f.badge
    pin := generate_password_hash P saltPin f.pin
    category := determine_user_category (some f.badge)
    company := if f.company.isEmpty then none else some f.company }

/-- The `register` route on a validated-or-not submission: check the
form, then uniqueness of email, then uniqueness of badge, then hash both
secrets, classify, and commit the single new row.  The login session
`sess` is threaded unchanged: the route never calls `login_user`. -/
def register (P : HashParams) (saltPw saltPin : String) (nextId : Nat)
    (sess : Option User) (st : Store) (f : RegisterForm) :
    Option User × Store × RegisterOutcome :=
  if validRegisterForm f then
    match findUserByEmail st f.email with
    | some _ => (sess, st, RegisterOutcome.duplicateEmail)
    | none =>
      match findUserByBadge st f.badge with
      | some _ => (sess, st, RegisterOutcome.duplicateBadge)
      | none =>
        let new_user := newUserOf P saltPw saltPin nextId f
        (sess, { st with users := st.users ++ [new_user] },
          RegisterOutcome.success new_user)
  else (sess, st, RegisterOutcome.formInvalid)

/-! ## Login (main.py, login) -/

/-- The visible outcome of a validated login submission. -/
inductive LoginOutcome where
  | emailNotFound
  | wrongPassword
  | success (user : User) (redirectTo : String)
deriving Repr, DecidableEq

/-- The flash message attached to each login outcome. -/
def loginFlashMessage : LoginOutcome → Option String
  | LoginOutcome.emailNotFound => some "That email does not exist, please try again."
  | LoginOutcome.wrongPassword => some "Password incorrect, please try again."
  | LoginOutcome.success _ _ => none

/-- The value of `url_for('blog.get_all_posts')`, the default landing location. -/
def defaultLanding : String := "/blog_project/"

/-- The `login` route on a validated submission: look up by email;
absent email flashes "does not exist"; a failing password check flashes
"incorrect"; otherwise `login_user(user)` binds the session and the
caller is redirected to `next_page or url_for('blog.get_all_posts')`
(the Python `or` falls back whenever `next_page` is None or empty). -/
def login (P : HashParams) (st : Store) (sess : Option User)
    (email password : String) (next_page : Option String) :
    Option User × LoginOutcome :=
  match findUserByEmail st email with
  | none => (sess, LoginOutcome.emailNotFound)
  | some user =>
    if check_password_hash P user.password password then
      (some user, LoginOutcome.success user
        (match next_page with
         | some n => if n.isEmpty then defaultLanding else n
         | none => defaultLanding))
    else (sess, LoginOutcome.wrongPassword)

/-! ## Badge/PIN API (main.py, authenticate_badge_pin) -/

/-- An error response body. -/
def errBody (message : String) : List (String × String) :=
  [("status", "error"), ("message", message)]

/-- The success response body: exactly status, message, user_id, name,
email and category of the authenticated user. -/
def successBody (user : User) : List (String × String) :=
  [("status", "success"), ("message", "Authentication successful"),
   ("user_id", toString user.id), ("name", user.name),
   ("email", user.email), ("category", user.category)]

/-- The `authenticate_badge_pin` route.  The body is `none` when
`request.get_json()` produced nothing, otherwise the parsed JSON object;
`if not data` is the Python falsy test, so the empty object also takes
the "Request must be JSON" branch.  `data.get` misses become empty via
`getD`, matching `if not badge or not pin`. -/
def authenticate_badge_pin (P : HashParams) (st : Store)
    (body : Option (List (String × String))) : Nat × List (String × String) :=
  match body with
  | none => (400, errBody "Request must be JSON")
  | some data =>
    if data.isEmpty then (400, errBody "Request must be JSON")
    else
      let badge := (List.lookup "badge" data).getD ""
      let pin := (List.lookup "pin" data).getD ""
      if badge.isEmpty || pin.isEmpty then (400, errBody "Missing badge or pin")
      else
        match findUserByBadge st badge with
        | none => (404, errBody "Badge not found")
        | some user =>
          if check_password_hash P user.pin pin then (200, successBody user)
          else (401, errBody "Invalid PIN")

/-! ## Administrative user deletion (main.py, delete_user; models.py cascade) -/

/-- The visible outcome of the delete-user handler body.
`integrityError` is the aborted transaction: `BlogPost.comments` has no
delete cascade, so deleting a post makes SQLAlchemy null out the
`post_id` of its surviving comments at flush time, which violates the
NOT NULL constraint on `comments.post_id` and makes the commit raise,
rolling the whole deletion back. -/
inductive DeleteOutcome where
  | refusedSelf
  | notFound
  | integrityError
  | deleted (name : String)
deriving Repr, DecidableEq

/-- The `delete_user` handler body: refuse when the target is the
caller's own id; 404 when no such user; otherwise delete the row.  Per
the `cascade="all, delete-orphan"` relationships on `User.posts` and
`User.comments`, the user's posts and comments are deleted with the row.
If a comment by ANOTHER author sits on one of the deleted posts, the
flush tries to null its NOT NULL `post_id` and the whole deletion aborts
with an IntegrityError, leaving the store unchanged; otherwise the
commit succeeds. -/
def delete_user (st : Store) (current_user : User) (user_id : Nat) :
    Store × DeleteOutcome :=
  if user_id = current_user.id then (st, DeleteOutcome.refusedSelf)
  else
    match st.users.find? (fun u => u.id == user_id) with
    | none => (st, DeleteOutcome.notFound)
    | some u =>
      if st.comments.any (fun c =>
          !(c.author_id == user_id) &&
          ((st.posts.filter (fun p => p.author_id == user_id)).map
            (fun p => p.id)).contains c.post_id) then
        (st, DeleteOutcome.integrityError)
      else
        (⟨st.users.filter (fun v => !(v.id == user_id)),
          st.posts.filter (fun p => !(p.author_id == user_id)),
          st.comments.filter (fun c => !(c.author_id == user_id))⟩,
         DeleteOutcome.deleted u.name)

/-- The full `/admin/delete_user/<user_id>` route: the handler body
wrapped in `roles_required('executive')`. -/
def delete_user_route (current_user : Option User) (request_url : String)
    (user_id : Nat) (st : Store) : Store × Decision DeleteOutcome :=
  roles_required ["executive"] current_user request_url
    (fun u s => delete_user s u user_id) st

/-! ## Concrete demonstration data shared by several witnesses -/

/-- A stored director: badge "3999", PIN digest of "4321". -/
def demoDirector : User :=
  ⟨2, "director@example.com", generate_password_hash idHash "pw" "secret",
   "Dir Ector", "3999", generate_password_hash idHash "ab" "4321",
   "director", none⟩

/-- A store holding only the demonstration director. -/
def demoStore : Store := ⟨[demoDirector], [], []⟩

/-! ## Claim C3 -/

/-- C3: the API response follows the condition table: no JSON data gives
400 "Request must be JSON" (the Python falsy test sends the empty object
down the same branch, so body `\x7b\x7d` also yields status 400); a
missing or empty badge or pin gives 400 "Missing badge or pin" and the
result does not depend on the store (no lookup); an unknown badge gives
404 "Badge not found"; a PIN digest mismatch gives 401 "Invalid PIN";
a match gives 200 with exactly status, message, user_id, name, email and
category — never the stored digests. -/
theorem C3_api_contract (P : HashParams) (st : Store) :
    (authenticate_badge_pin P st none = (400, errBody "Request must be JSON")) ∧
    (authenticate_badge_pin P st (some []) = (400, errBody "Request must be JSON")) ∧
    (∀ data, data ≠ [] →
      (((List.lookup "badge" data).getD "").isEmpty ||
        ((List.lookup "pin" data).getD "").isEmpty) = true →
      authenticate_badge_pin P st (some data) = (400, errBody "Missing badge or pin") ∧
      (∀ st' : Store,
        authenticate_badge_pin P st' (some data) =
          authenticate_badge_pin P st (some data))) ∧
    (∀ data, data ≠ [] →
      ((List.lookup "badge" data).getD "").isEmpty = false →
      ((List.lookup "pin" data).getD "").isEmpty = false →
      findUserByBadge st ((List.lookup "badge" data).getD "") = none →
      authenticate_badge_pin P st (some data) = (404, errBody "Badge not found")) ∧
    (∀ data user, data ≠ [] →
      ((List.lookup "badge" data).getD "").isEmpty = false →
      ((List.lookup "pin" data).getD "").isEmpty = false →
      findUserByBadge st ((List.lookup "badge" data).getD "") = some user →
      check_password_hash P user.pin ((List.lookup "pin" data).getD "") = false →
      authenticate_badge_pin P st (some data) = (401, errBody "Invalid PIN")) ∧
    (∀ data user, data ≠ [] →
      ((List.lookup "badge" data).getD "").isEmpty = false →
      ((List.lookup "pin" data).getD "").isEmpty = false →
      findUserByBadge st ((List.lookup "badge" data).getD "") = some user →
      check_password_hash P user.pin ((List.lookup "pin" data).getD "") = true →
      authenticate_badge_pin P st (some data) = (200, successBody user)) := by
  refine ⟨rfl, rfl, ?_, ?_, ?_, ?_⟩
  · intro data hdata hmiss
    have hde : data.isEmpty = false := by
      cases data with
      | nil => exact absurd rfl hdata
      | cons a l => rfl
    refine ⟨?_, ?_⟩
    · simp only [authenticate_badge_pin, hde, Bool.false_eq_true, if_false,
        hmiss, if_true]
    · intro st'
      simp only [authenticate_badge_pin, hde, Bool.false_eq_true, if_false,
        hmiss, if_true]
  · intro data hdata hb hp hfind
    have hde : data.isEmpty = false := by
      cases data with
      | nil => exact absurd rfl hdata
      | cons a l => rfl
    simp only [authenticate_badge_pin, hde, Bool.false_eq_true, if_false, hb,
      hp, Bool.or_self, hfind]
  · intro data user hdata hb hp hfind hcheck
    have hde : data.isEmpty = false := by
      cases data with
      | nil => exact absurd rfl hdata
      | cons a l => rfl
    simp only [authenticate_badge_pin, hde, Bool.false_eq_true, if_false, hb,
      hp, Bool.or_self, hfind, hcheck]
  · intro data user hdata hb hp hfind hcheck
    have hde : data.isEmpty = false := by
      cases data with
      | nil => exact absurd rfl hdata
      | cons a l => rfl
    simp only [authenticate_badge_pin, hde, Bool.false_eq_true, if_false, hb,
      hp, Bool.or_self, hfind, hcheck, if_true]

/-- Witness for C3: the end-to-end success row at badge "3999" with the
matching PIN "4321" against the demonstration store. -/
theorem C3_api_contract_witness :
    authenticate_badge_pin idHash demoStore
        (some [("badge", "3999"), ("pin", "4321")]) =
      (200, successBody demoDirector) :=
  (C3_api_contract idHash demoStore).2.2.2.2.2
    [("badge", "3999"), ("pin", "4321")] demoDirector (by decide) (by decide)
    (by decide) (by decide) (by decide)

/-! ## Claim C4 -/

/-- C4: on a validated submission whose email already exists the route
aborts with the duplicate-email outcome and the store is returned
unchanged (zero new rows); likewise for an existing badge; when both
uniqueness checks pass, exactly the one fully-populated row built by
`newUserOf` is appended in a single commit. -/
theorem C4_register_uniqueness (P : HashParams) (saltPw saltPin : String)
    (nextId : Nat) (sess : Option User) (st : Store) (f : RegisterForm) :
    (∀ u, validRegisterForm f = true → findUserByEmail st f.email = some u →
      register P saltPw saltPin nextId sess st f =
        (sess, st, RegisterOutcome.duplicateEmail)) ∧
    (∀ u, validRegisterForm f = true → findUserByEmail st f.email = none →
      findUserByBadge st f.badge = some u →
      register P saltPw saltPin nextId sess st f =
        (sess, st, RegisterOutcome.duplicateBadge)) ∧
    (validRegisterForm f = true → findUserByEmail st f.email = none →
      findUserByBadge st f.badge = none →
      register P saltPw saltPin nextId sess st f =
        (sess, { st with users := st.users ++ [newUserOf P saltPw saltPin nextId f] },
          RegisterOutcome.success (newUserOf P saltPw saltPin nextId f))) := by
  refine ⟨?_, ?_, ?_⟩
  · intro u hvalid hemail
    simp [register, hvalid, hemail]
  · intro u hvalid hemail hbadge
    simp [register, hvalid, hemail, hbadge]
  · intro hvalid hemail hbadge
    simp [register, hvalid, hemail, hbadge]

/-- Witness for C4: registering the demonstration director's email again
is refused with no write. -/
theorem C4_register_uniqueness_witness :
    register idHash "s1" "s2" 7 none demoStore
        ⟨"director@example.com", "pw2", "Other Person", "4123", "", "1234"⟩ =
      (none, demoStore, RegisterOutcome.duplicateEmail) :=
  (C4_register_uniqueness idHash "s1" "s2" 7 none demoStore
      ⟨"director@example.com", "pw2", "Other Person", "4123", "", "1234"⟩).1
    demoDirector (by decide) (by decide)

/-! ## Claim C6 -/

/-- A decimal digit is not whitespace. -/
theorem isDigit_not_whitespace (c : Char) (h : c.isDigit = true) :
    c.isWhitespace = false := by
  simp [Char.isDigit] at h
  simp [Char.isWhitespace]
  refine ⟨⟨⟨?_, ?_⟩, ?_⟩, ?_⟩ <;> (intro hc; subst hc; revert h; decide)

/-- Restating the spec reading of the PIN pattern over character data. -/
theorem pinSpecAccept_eq (pin : String) :
    pinSpecAccept pin = reMatch46 pin.data := rfl

/-- A string containing a digit passes `DataRequired`. -/
theorem dataRequired_of_digit (pin : String) (c : Char) (hc : c ∈ pin.data)
    (hd : c.isDigit = true) : dataRequired pin = true := by
  have : pin.data.all Char.isWhitespace = false := by
    simp [List.all_eq_false]
    exact ⟨c, hc, by simp [isDigit_not_whitespace c hd]⟩
  simp [dataRequired, this]

/-- The full validator chain of `RegisterForm.pin` accepts exactly four
to six digits, or four or five digits plus one trailing newline. -/
theorem pinFieldValid_eq_amended (pin : String) :
    pinFieldValid pin = pinAcceptAmended pin := by
  rcases hlast : pin.data.getLast? with _ | c
  · -- the empty string: both sides false
    have hnil : pin.data = [] := by simpa using hlast
    have : pin = "" := by
      cases pin
      simp at hnil
      simp [hnil]
    subst this
    decide
  · by_cases hnl : c = '\n'
    · subst hnl
      -- last character is a newline
      have hdata : pin.data.dropLast ++ ['\n'] = pin.data :=
        List.dropLast_append_getLast? '\n' hlast
      have hnlmem : '\n' ∈ pin.data := by
        rw [← hdata]
        exact List.mem_append_right _ (List.mem_singleton.mpr rfl)
      have hA : reMatch46 pin.data = false := by
        have : pin.data.all Char.isDigit = false := by
          simp [List.all_eq_false]
          exact ⟨'\n', hnlmem, by decide⟩
        simp [reMatch46, this]
      have hspec : pinSpecAccept pin = false := hA
      have hplen : pin.length = pin.data.dropLast.length + 1 := by
        show pin.data.length = pin.data.dropLast.length + 1
        conv_lhs => rw [← hdata]
        simp
      have hBtag : (pin.data.getLast? == some '\n') = true := by
        rw [hlast]
        rfl
      by_cases h4 : 4 ≤ pin.data.dropLast.length
      · by_cases hdig : pin.data.dropLast.all Char.isDigit = true
        · -- dropLast consists of at least four digits
          have hdr : dataRequired pin = true := by
            rcases hdl : pin.data.dropLast with _ | ⟨d, rest⟩
            · rw [hdl] at h4
              simp at h4
            · have hddig : d.isDigit = true :=
                List.all_eq_true.mp hdig d (hdl ▸ List.mem_cons_self d rest)
              have hdmem : d ∈ pin.data := by
                rw [← hdata, hdl]
                exact List.mem_append_left _ (List.mem_cons_self d rest)
              exact dataRequired_of_digit pin d hdmem hddig
          by_cases h5 : pin.data.dropLast.length ≤ 5
          · -- accepted: four or five digits plus the trailing newline
            have h1 : decide (4 ≤ pin.data.dropLast.length) = true := by
              simpa using h4
            have hC : reMatch46 pin.data.dropLast = true := by
              simp [reMatch46, hdig, h1]
              omega
            have hre : regexpDigits46 pin = true := by
              simp [regexpDigits46, hBtag, hC]
            have hlb : lengthBetween 4 6 pin = true := by
              simp [lengthBetween]
              omega
            have hrhs : pinAcceptAmended pin = true := by
              simp [pinAcceptAmended, hBtag, hdig]
              right
              omega
            simp [pinFieldValid, hdr, hlb, hre, hrhs]
          · -- six or more digits: the newline pushes the length past six
            have hlb : lengthBetween 4 6 pin = false := by
              simp [lengthBetween]
              omega
            have hrhs : pinAcceptAmended pin = false := by
              simp [pinAcceptAmended, hspec]
              intro _ _ hle
              exact absurd hle (by omega)
            simp [pinFieldValid, hlb, hrhs]
        · -- dropLast not all digits
          have hdig' : pin.data.dropLast.all Char.isDigit = false := by
            simpa using hdig
          have hC : reMatch46 pin.data.dropLast = false := by
            simp [reMatch46, hdig']
          have hre : regexpDigits46 pin = false := by
            simp [regexpDigits46, hA, hC]
          have hrhs : pinAcceptAmended pin = false := by
            simp [pinAcceptAmended, hspec, hdig']
          simp [pinFieldValid, hre, hrhs]
      · -- dropLast shorter than four characters
        have hC : reMatch46 pin.data.dropLast = false := by
          simp [reMatch46]
          intro h4x _
          exact absurd h4x (by omega)
        have hre : regexpDigits46 pin = false := by
          simp [regexpDigits46, hA, hC]
        have hrhs : pinAcceptAmended pin = false := by
          simp [pinAcceptAmended, hspec]
          intro _ h4x _
          exact absurd h4x (by omega)
        simp [pinFieldValid, hre, hrhs]
    · -- last character is not a newline
      have hBtag : (pin.data.getLast? == some '\n') = false := by
        rw [hlast]
        simp [hnl]
      by_cases hA : reMatch46 pin.data = true
      · have hAprops : 4 ≤ pin.data.length ∧ pin.data.length ≤ 6 ∧
            ∀ d ∈ pin.data, d.isDigit = true := by
          simpa [reMatch46, and_assoc, List.all_eq_true] using hA
        have hdr : dataRequired pin = true := by
          rcases hdl : pin.data with _ | ⟨d, rest⟩
          · rw [hdl] at hAprops
            simp at hAprops
          · exact dataRequired_of_digit pin d (hdl ▸ List.mem_cons_self d rest)
              (hAprops.2.2 d (hdl ▸ List.mem_cons_self d rest))
        have hlb : lengthBetween 4 6 pin = true := by
          simp [lengthBetween]
          exact ⟨hAprops.1, hAprops.2.1⟩
        have hre : regexpDigits46 pin = true := by
          simp [regexpDigits46, hA]
        have hrhs : pinAcceptAmended pin = true := by
          simp [pinAcceptAmended, pinSpecAccept_eq, hA]
        simp [pinFieldValid, hdr, hlb, hre, hrhs]
      · have hA' : reMatch46 pin.data = false := by simpa using hA
        have hre : regexpDigits46 pin = false := by
          simp [regexpDigits46, hA', hBtag]
        have hrhs : pinAcceptAmended pin = false := by
          simp [pinAcceptAmended, pinSpecAccept_eq, hA', hBtag]
        simp [pinFieldValid, hre, hrhs]

/-- Counterexample for C6 as stated: `re.match` lets `$` match before a
trailing newline, so the validator chain of `RegisterForm.pin` accepts
"1234\n", which is not a string of four to six digits; conversely the
seven-character "123456\n" matches the Python regex yet is rejected by
`Length(max=6)`.  Acceptance is therefore not "exactly a match of
`^[0-9]{4,6}$`" under either reading of the pattern. -/
theorem C6_pin_validation_counterexample :
    pinFieldValid "1234\n" = true ∧ pinSpecAccept "1234\n" = false ∧
    pinFieldValid "123456\n" = false ∧ regexpDigits46 "123456\n" = true := by
  decide

/-- C6 (amended): the PIN validator chain of `RegisterForm` accepts a
candidate exactly when it is four to six digits, or four or five digits
followed by a single trailing newline (Python's `$` matches before a
trailing newline; `Length(max=6)` bounds the total length); "1234" and
"123456" pass, "123", "1234567" and "12a4" fail, "1234\n" and "12345\n"
pass, "123456\n" fails; and a submission with a failing PIN leaves
`register` at the invalid-form outcome with the store untouched, before
any hashing can contribute to a write. -/
theorem C6_pin_validation :
    (∀ pin : String, pinFieldValid pin = pinAcceptAmended pin) ∧
    pinFieldValid "1234" = true ∧ pinFieldValid "123456" = true ∧
    pinFieldValid "123" = false ∧ pinFieldValid "1234567" = false ∧
    pinFieldValid "12a4" = false ∧
    pinFieldValid "1234\n" = true ∧ pinFieldValid "12345\n" = true ∧
    pinFieldValid "123456\n" = false ∧
    (∀ (P : HashParams) (saltPw saltPin : String) (nextId : Nat)
      (sess : Option User) (st : Store) (f : RegisterForm),
      pinFieldValid f.pin = false →
      register P saltPw saltPin nextId sess st f =
        (sess, st, RegisterOutcome.formInvalid)) := by
  refine ⟨pinFieldValid_eq_amended, by decide, by decide, by decide, by decide,
    by decide, by decide, by decide, by decide, ?_⟩
  intro P saltPw saltPin nextId sess st f hpin
  have hform : validRegisterForm f = false := by
    simp [validRegisterForm, hpin]
  simp [register, hform]

/-- Witness for C6: `register` refuses the too-short PIN "123" without
writing. -/
theorem C6_pin_validation_witness :
    register idHash "s1" "s2" 7 none demoStore
        ⟨"new@example.com", "pw", "New Person", "5123", "", "123"⟩ =
      (none, demoStore, RegisterOutcome.formInvalid) :=
  C6_pin_validation.2.2.2.2.2.2.2.2.2 idHash "s1" "s2" 7 none demoStore
    ⟨"new@example.com", "pw", "New Person", "5123", "", "123"⟩ (by decide)

/-! ## Claim C7 -/

/-- Counterexample for C7 as stated: a deep-link target CAN be supplied
and still not be honoured.  With the empty string supplied as the `next`
target, the successful login redirects to the default landing location,
not to the supplied target (Python's `next_page or url_for(...)` falls
back on every falsy value). -/
theorem C7_login_counterexample :
    login idHash demoStore none "director@example.com" "secret" (some "") =
      (some demoDirector,
        LoginOutcome.success demoDirector defaultLanding) ∧
    defaultLanding ≠ "" := by decide

/-- C7 (amended): an unknown email flashes the "does not exist" message;
a failing password check on an existing identity flashes the distinct
"incorrect" message; on a match the session is bound to the user and the
caller is redirected to the supplied target whenever that target is
non-empty, and to the default landing location when the target is absent
or empty. -/
theorem C7_login_flow (P : HashParams) (st : Store) (sess : Option User)
    (email password : String) (next_page : Option String) :
    (findUserByEmail st email = none →
      login P st sess email password next_page = (sess, LoginOutcome.emailNotFound)) ∧
    (∀ u, findUserByEmail st email = some u →
      check_password_hash P u.password password = false →
      login P st sess email password next_page = (sess, LoginOutcome.wrongPassword)) ∧
    (loginFlashMessage LoginOutcome.emailNotFound ≠
      loginFlashMessage LoginOutcome.wrongPassword) ∧
    (∀ u n, findUserByEmail st email = some u →
      check_password_hash P u.password password = true →
      next_page = some n → n ≠ "" →
      login P st sess email password next_page =
        (some u, LoginOutcome.success u n)) ∧
    (∀ u, findUserByEmail st email = some u →
      check_password_hash P u.password password = true →
      (next_page = none ∨ next_page = some "") →
      login P st sess email password next_page =
        (some u, LoginOutcome.success u defaultLanding)) := by
  refine ⟨?_, ?_, by decide, ?_, ?_⟩
  · intro hfind
    simp [login, hfind]
  · intro u hfind hcheck
    simp [login, hfind, hcheck]
  · intro u n hfind hcheck hnext hne
    have hne' : n.isEmpty = false := by
      cases hb : n.isEmpty
      · rfl
      · exact absurd ((String.isEmpty_iff n).mp hb) hne
    subst hnext
    simp [login, hfind, hcheck, hne']
  · intro u hfind hcheck hnext
    have hemp : ("" : String).isEmpty = true := rfl
    rcases hnext with h | h <;> subst h
    · simp [login, hfind, hcheck]
    · simp [login, hfind, hcheck, hemp]

/-- Witness for C7: a successful login with the captured deep link
"/blog_project/new-post" lands exactly there. -/
theorem C7_login_flow_witness :
    login idHash demoStore none "director@example.com" "secret"
        (some "/blog_project/new-post") =
      (some demoDirector,
        LoginOutcome.success demoDirector "/blog_project/new-post") :=
  (C7_login_flow idHash demoStore none "director@example.com" "secret"
      (some "/blog_project/new-post")).2.2.2.1 demoDirector
    "/blog_project/new-post" (by decide) (by decide) rfl (by decide)

/-! ## Claim C8 -/

/-- C8: `register` never touches the login session: whatever the branch
taken (invalid form, duplicate email, duplicate badge, or a successful
insert), the session component of the result is the incoming session, so
a successful registration leaves the new identity unauthenticated and a
separate login step is required. -/
theorem C8_register_no_autologin (P : HashParams) (saltPw saltPin : String)
    (nextId : Nat) (sess : Option User) (st : Store) (f : RegisterForm) :
    (register P saltPw saltPin nextId sess st f).1 = sess := by
  cases hv : validRegisterForm f with
  | false => simp [register, hv]
  | true =>
    cases hfe : findUserByEmail st f.email with
    | none =>
      cases hfb : findUserByBadge st f.badge with
      | none => simp [register, hv, hfe, hfb]
      | some u => simp [register, hv, hfe, hfb]
    | some u => simp [register, hv, hfe]

/-! ## Claim C9 -/

/-- C9: an authenticated executive asking the administrative route to
delete their own identity is let past the role guard but refused by the
self-deletion check: the store comes back unchanged and the outcome is
the flash-and-redirect refusal, with no delete performed. -/
theorem C9_self_delete_refused (st : Store) (current : User) (url : String)
    (hrole : current.category = "executive") :
    delete_user_route (some current) url current.id st =
      (st, Decision.allow DeleteOutcome.refusedSelf) := by
  unfold delete_user_route roles_required
  simp [hrole, delete_user]

/-- A stored executive: badge "1001". -/
def demoExec : User :=
  ⟨1, "exec@example.com", generate_password_hash idHash "pw" "xsecret",
   "Ex Ec", "1001", generate_password_hash idHash "cd" "9999",
   "executive", none⟩

/-- A post authored by the demonstration director. -/
def demoPost : BlogPost :=
  ⟨10, 2, "A Title", "A Subtitle", "January 01, 2025", "Body", "http://img"⟩

/-- A store with the executive, the director, the director's post, and
a comment by the director on their own post.  No other author has
commented on the director's post, so deleting the director can flush
cleanly. -/
def demoAdminStore : Store :=
  ⟨[demoExec, demoDirector], [demoPost], [⟨100, "mine", 2, 10⟩]⟩

/-- Witness for C9: the demonstration executive targeting their own id. -/
theorem C9_self_delete_refused_witness :
    delete_user_route (some demoExec) "/blog_project/admin/delete_user/1"
        demoExec.id demoAdminStore =
      (demoAdminStore, Decision.allow DeleteOutcome.refusedSelf) :=
  C9_self_delete_refused demoAdminStore demoExec
    "/blog_project/admin/delete_user/1" rfl

/-! ## Claim C10 -/

/-- The abort path of the administrative delete, demonstrated: with an
executive-authored comment sitting on the director's post, deleting the
director makes the flush hit the NOT NULL `comments.post_id` and the
transaction rolls back with nothing removed. -/
theorem delete_user_integrity_abort :
    delete_user ⟨[demoExec, demoDirector], [demoPost], [⟨101, "nice", 1, 10⟩]⟩
        demoExec 2 =
      (⟨[demoExec, demoDirector], [demoPost], [⟨101, "nice", 1, 10⟩]⟩,
        DeleteOutcome.integrityError) := by
  decide

/-- C10: whenever the administrative delete goes through (outcome
`deleted`), the resulting store retains no user row with the deleted id,
no post authored by it and no comment authored by it: the
`cascade="all, delete-orphan"` relationships remove the authored content
rather than merely disassociating it.  (When another author's comment
sits on a deleted post the transaction instead aborts wholesale with an
IntegrityError — see `delete_user_integrity_abort` — so the claim's
"after the delete" condition is never reached there.) -/
theorem C10_cascade_delete (st : Store) (current : User) (user_id : Nat)
    (st' : Store) (nm : String)
    (h : delete_user st current user_id = (st', DeleteOutcome.deleted nm)) :
    (∀ u ∈ st'.users, u.id ≠ user_id) ∧
    (∀ p ∈ st'.posts, p.author_id ≠ user_id) ∧
    (∀ c ∈ st'.comments, c.author_id ≠ user_id) := by
  unfold delete_user at h
  by_cases hself : user_id = current.id
  · rw [if_pos hself] at h
    simp at h
  · rw [if_neg hself] at h
    rcases hfind : st.users.find? (fun u => u.id == user_id) with _ | u <;>
      rw [hfind] at h
    · simp at h
    · by_cases hint : (st.comments.any (fun c =>
          !(c.author_id == user_id) &&
          ((st.posts.filter (fun p => p.author_id == user_id)).map
            (fun p => p.id)).contains c.post_id)) = true
      · simp only [hint, if_true] at h
        simp at h
      · have hint' : (st.comments.any (fun c =>
            !(c.author_id == user_id) &&
            ((st.posts.filter (fun p => p.author_id == user_id)).map
              (fun p => p.id)).contains c.post_id)) = false := by
          simpa using hint
        rw [hint'] at h
        have hst : st' =
            ⟨st.users.filter (fun v => !(v.id == user_id)),
             st.posts.filter (fun p => !(p.author_id == user_id)),
             st.comments.filter (fun c => !(c.author_id == user_id))⟩ := by
          have := congrArg Prod.fst h
          simpa using this.symm
        subst hst
        refine ⟨?_, ?_, ?_⟩
        · intro u hu
          have := (List.mem_filter.mp hu).2
          simpa using this
        · intro p hp
          have := (List.mem_filter.mp hp).2
          simpa using this
        · intro c hc
          have := (List.mem_filter.mp hc).2
          simpa using this

/-- Witness for C10: deleting the demonstration director removes their
row, their post and their comment, leaving only the executive. -/
theorem C10_cascade_delete_witness :
    (∀ u ∈ (⟨[demoExec], [], []⟩ : Store).users, u.id ≠ 2) ∧
    (∀ p ∈ (⟨[demoExec], [], []⟩ : Store).posts, p.author_id ≠ 2) ∧
    (∀ c ∈ (⟨[demoExec], [], []⟩ : Store).comments, c.author_id ≠ 2) :=
  C10_cascade_delete demoAdminStore demoExec 2
    ⟨[demoExec], [], []⟩ "Dir Ector" (by decide)
